import Mathlib

/-!
Shallow embedding of the `gpu::CommandBufferService` component declared in
`src/chrome/browser/bookmarks/bookmark_storage.h` (lines 200-261).  Only the
class declaration is present under `src/`; the member-function bodies are not
part of the supplied sources, so every operation below is modelled from the
natural-language specification (`spec.md`), faithful to its words.  Machine
`int32` arguments are embedded as `Int` (no arithmetic that could overflow
occurs: the operations only compare and store offsets), `size_t` sizes as
`Nat`.  Fallible operations return `Except LocalErr _`: the specification
(sec. 7) states that the local errors `InvalidHandle`, `OutOfBounds` and
`AllocationError` are reported synchronously to the immediate caller and never
mutate state, so a rejected call yields an error value and no new state.
Callback invocations (sec. 4.3) are modelled as emitted `Event` values.
-/

namespace Gpu

/-- Modelled from the spec (sec. 3, Transfer Buffer): an externally-owned
memory region plus its byte size; the region itself is opaque to the service,
so it is embedded as an abstract numeric descriptor. -/
structure Buffer where
  region : Nat
  size : Nat
deriving DecidableEq, Repr

/-- Modelled from the spec (sec. 7): the local, non-sticky error taxonomy.
These are reported synchronously to the caller and never stored in the
service state. -/
inductive LocalErr where
  | invalidHandle
  | outOfBounds
  | allocationError
deriving DecidableEq, Repr

/-- Modelled from the spec (sec. 4.3): the three optional notification
slots are embedded as events emitted by the operations. -/
inductive Event where
  | putOffsetChanged
  | getBufferChanged
  | parseErrorSignal
deriving DecidableEq, Repr

/-- Modelled from the spec (sec. 3 / sec. 4.4, Shared State Snapshot): the
denormalized copy of get offset, token, error, context-lost-reason and
generation counter written for lock-free polling. -/
structure Snapshot where
  get : Int
  token : Int
  error : Int
  contextLost : Option Int
deriving DecidableEq, Repr

/-- Modelled from the spec (sec. 4.4): the snapshot together with the
generation counter that advances on every write. -/
structure SharedSnapshot where
  fields : Snapshot
  generation : Nat
deriving DecidableEq, Repr

/-- Modelled from the spec (secs. 2-4): the whole service state, mirroring the
private members of `CommandBufferService` declared in the header
(`registered_objects_`, `ring_buffer_id_`, `num_entries_`, `get_offset_`,
`put_offset_`, `token_`, `error_`, `context_lost_reason_`,
`shared_memory_bytes_allocated_`, the shared-state buffer binding and its
snapshot contents).  The registry is an association list of live handles;
`error = 0` means the trivial no-error latch and `contextLost = none` means
the context is not lost. -/
structure ServiceState where
  registry : List (Int × Buffer)
  bytesRegistered : Nat
  ringBufferId : Option Int
  numEntries : Nat
  getOffset : Int
  putOffset : Int
  token : Int
  error : Int
  contextLost : Option Int
  sharedStateBufferId : Option Int
  snapshot : SharedSnapshot
deriving DecidableEq, Repr

/-- Modelled from the spec (sec. 6, `GetState`): the observable state
snapshot returned to callers: put, get, token, error, context-lost-reason. -/
structure CBState where
  put : Int
  get : Int
  token : Int
  error : Int
  contextLost : Option Int
deriving DecidableEq, Repr

/-- Modelled from the spec (secs. 3 and 7): the freshly constructed service:
empty registry, ring `Unbound`, offsets zero, trivial error latch, context not
lost, no shared-state buffer bound. -/
def initialState : ServiceState :=
  { registry := []
    bytesRegistered := 0
    ringBufferId := none
    numEntries := 0
    getOffset := 0
    putOffset := 0
    token := 0
    error := 0
    contextLost := none
    sharedStateBufferId := none
    snapshot := { fields := { get := 0, token := 0, error := 0, contextLost := none }
                  generation := 0 } }

/-- Modelled from the spec (sec. 4.2): the command-entry stride is a fixed
compile-time constant of the command-entry format; the spec pins its value
only in the sec. 8 concrete scenario, where the stride is 64 bytes. -/
def entryStride : Nat := 64

/-- Modelled from the spec (sec. 6): `GetState` reports the observable
snapshot of put, get, token, error and context-lost-reason. -/
def GetState (s : ServiceState) : CBState :=
  { put := s.putOffset
    get := s.getOffset
    token := s.token
    error := s.error
    contextLost := s.contextLost }

/-- Modelled from the spec (sec. 4.1, Registry): the next available handle
assigned for an `auto` registration request: one past the largest live
handle, which is unique among live handles. -/
def freshHandle (s : ServiceState) : Int :=
  1 + s.registry.foldr (fun p m => max p.1 m) 0

/-- Modelled from the spec (sec. 4.1): `RegisterTransferBuffer(region, size,
requested_id)`.  A `none` request means the `auto` sentinel and assigns the
next available handle; an explicit request must be granted exactly or the
call fails when the handle is negative or already in use.  The call also
increments the running counter of registered bytes. -/
def RegisterTransferBuffer (b : Buffer) (idRequest : Option Int)
    (s : ServiceState) : Except LocalErr (Int × ServiceState) :=
  match idRequest with
  | some h =>
      if h < 0 then .error .invalidHandle
      else if (s.registry.lookup h).isSome then .error .invalidHandle
      else .ok (h, { s with registry := (h, b) :: s.registry
                            bytesRegistered := s.bytesRegistered + b.size })
  | none =>
      .ok (freshHandle s,
           { s with registry := (freshHandle s, b) :: s.registry
                    bytesRegistered := s.bytesRegistered + b.size })

/-- Modelled from the spec (sec. 4.1): `Lookup(handle)` returns the region
descriptor and size for a live handle and `none` (NotFound) otherwise; it
never mutates state. -/
def GetTransferBuffer (h : Int) (s : ServiceState) : Option Buffer :=
  s.registry.lookup h

/-- Modelled from the spec (secs. 4.1 and 4.2): `DestroyTransferBuffer(h)`
removes the mapping of a live handle, surfacing `InvalidHandle` for a dead
one; destroying the handle that is simultaneously the active ring binding
first detaches the binding (the ring returns to `Unbound`). -/
def DestroyTransferBuffer (h : Int) (s : ServiceState) :
    Except LocalErr ServiceState :=
  match s.registry.lookup h with
  | some b =>
      let s1 := if s.ringBufferId = some h
                then { s with ringBufferId := none, numEntries := 0 }
                else s
      .ok { s1 with registry := s1.registry.filter (fun p => p.1 != h)
                    bytesRegistered := s1.bytesRegistered - b.size }
  | none => .error .invalidHandle

/-- Modelled from the spec (sec. 4.2): `SetGetBuffer(handle)` looks the
handle up in the registry; on success it transitions to `Bound`, recomputes
`entry_count = size / entry_stride` and resets both put and get to 0,
emitting the get-buffer-changed notification; on an unknown handle it
reports `InvalidHandle` with no mutation observable. -/
def SetGetBuffer (h : Int) (s : ServiceState) :
    Except LocalErr (ServiceState × List Event) :=
  match s.registry.lookup h with
  | some b =>
      .ok ({ s with ringBufferId := some h
                    numEntries := b.size / entryStride
                    putOffset := 0
                    getOffset := 0 }, [Event.getBufferChanged])
  | none => .error .invalidHandle

/-- Modelled from the spec (secs. 4.2 and its edge-case policy): an offset is
accepted when it lies in `[0, entry_count)`, and 0 is additionally accepted
against an `entry_count = 0` ring, which is legal and permanently empty. -/
def offsetAccepted (s : ServiceState) (v : Int) : Prop :=
  (0 ≤ v ∧ v < (s.numEntries : Int)) ∨ v = 0

instance (s : ServiceState) (v : Int) : Decidable (offsetAccepted s v) := by
  unfold offsetAccepted
  infer_instance

/-- Modelled from the spec (sec. 4.2): `SetGetOffset(value)` is the
consumer-side acknowledgment; an out-of-range value is rejected as
`OutOfBounds` with no mutation, an accepted value is stored as the new get
offset. -/
def SetGetOffset (v : Int) (s : ServiceState) :
    Except LocalErr ServiceState :=
  if offsetAccepted s v then .ok { s with getOffset := v }
  else .error .outOfBounds

/-- Modelled from the spec (sec. 4.2): `Flush(put_offset)` is the
producer-side publish; an out-of-range value is rejected as `OutOfBounds`
with no mutation, an accepted value is stored as the new put offset and the
put-offset-changed notification is invoked synchronously before returning. -/
def Flush (p : Int) (s : ServiceState) :
    Except LocalErr (ServiceState × List Event) :=
  if offsetAccepted s p then
    .ok ({ s with putOffset := p }, [Event.putOffsetChanged])
  else .error .outOfBounds

/-- Modelled from the spec (sec. 4.3, Token handling): `SetToken(value)`
stores the value unconditionally, last-write-wins, with no ordering check
against previous tokens. -/
def SetToken (t : Int) (s : ServiceState) : ServiceState :=
  { s with token := t }

/-- Modelled from the spec (secs. 3, 4.3 and 4.5): `SetParseError(code)` is a
sticky latch: a non-trivial code arriving while the latch is trivial is
stored and signals the parse-error notification exactly once; an
already-latched error is never overwritten or re-signalled by normal
operations. -/
def SetParseError (code : Int) (s : ServiceState) :
    ServiceState × List Event :=
  if s.error = 0 ∧ code ≠ 0 then
    ({ s with error := code }, [Event.parseErrorSignal])
  else (s, [])

/-- Modelled from the spec (secs. 3 and 4.5): `SetContextLostReason(reason)`
is the other half of the sticky latch: once lost, the reason is never
overwritten by normal operations. -/
def SetContextLostReason (r : Int) (s : ServiceState) : ServiceState :=
  if s.contextLost.isNone then { s with contextLost := some r } else s

/-- Modelled from the spec (sec. 4.4): `SetSharedStateBuffer(handle)` binds a
live transfer buffer as the snapshot target; an unknown handle is
`InvalidHandle`. -/
def SetSharedStateBuffer (h : Int) (s : ServiceState) :
    Except LocalErr ServiceState :=
  if (s.registry.lookup h).isSome then
    .ok { s with sharedStateBufferId := some h }
  else .error .invalidHandle

/-- Modelled from the spec (sec. 4.4): `UpdateState()` writes the get offset,
token, error code and context-lost-reason together with an incremented
generation counter into the bound shared-state buffer; without a bound
snapshot target there is nowhere to write. -/
def UpdateState (s : ServiceState) : ServiceState :=
  match s.sharedStateBufferId with
  | some _ =>
      { s with snapshot :=
          { fields := { get := s.getOffset
                        token := s.token
                        error := s.error
                        contextLost := s.contextLost }
            generation := s.snapshot.generation + 1 } }
  | none => s

/-- Modelled from the spec (sec. 5): the consumer is an independently
scheduled party whose visible actions while a producer waits are get-offset
acknowledgments and latching an error or a context-lost reason. -/
inductive ConsumerAct where
  | ackGet (v : Int)
  | latchParseError (code : Int)
  | latchContextLost (reason : Int)
deriving DecidableEq, Repr

/-- Modelled from the spec (sec. 5): applying one consumer action to the
service state; a rejected acknowledgment leaves the state unchanged. -/
def applyConsumer (a : ConsumerAct) (s : ServiceState) : ServiceState :=
  match a with
  | .ackGet v =>
      match SetGetOffset v s with
      | .ok s' => s'
      | .error _ => s
  | .latchParseError code => (SetParseError code s).1
  | .latchContextLost r => SetContextLostReason r s

/-- Modelled from the spec (secs. 4.2 and 5): the condition on which a
blocked `FlushSync(_, g0)` caller is released: the acknowledged get offset
has advanced past `g0`, or the ring is drained (`get = put`), or the
error/context-lost latch is non-trivial. -/
def syncDone (g0 : Int) (s : ServiceState) : Bool :=
  decide (g0 < s.getOffset) || decide (s.getOffset = s.putOffset) ||
    decide (s.error ≠ 0) || s.contextLost.isSome

/-- Modelled from the spec (secs. 4.2, 5 and 9): the condition-wait of
`FlushSync`, embedded over an explicit finite schedule of consumer actions.
The wait returns the state at release together with `true` when the release
condition was reached, and the state after the schedule is exhausted together
with `false` when the caller is still blocked. -/
def flushSyncWait (g0 : Int) : List ConsumerAct → ServiceState →
    ServiceState × Bool
  | [], s => (s, syncDone g0 s)
  | a :: rest, s =>
      if syncDone g0 s then (s, true)
      else flushSyncWait g0 rest (applyConsumer a s)

/-- Modelled from the spec (sec. 4.2): `FlushSync(put_offset,
last_known_get)`: as `Flush`, but additionally blocks the caller until the
release condition holds, then returns the latest observable state snapshot.
The result carries the state reached and `some snapshot` when the call
completed, or `none` when the caller is still blocked after the supplied
consumer schedule. -/
def FlushSync (p g0 : Int) (sched : List ConsumerAct) (s : ServiceState) :
    Except LocalErr (ServiceState × Option CBState) :=
  if offsetAccepted s p then
    let w := flushSyncWait g0 sched { s with putOffset := p }
    .ok (w.1, if w.2 then some (GetState w.1) else none)
  else .error .outOfBounds

/-- Modelled from the spec (sec. 6): the operation surface as a single step
type, used to quantify over arbitrary sequences of normal operations. -/
inductive Op where
  | flush (p : Int)
  | flushSync (p g0 : Int) (sched : List ConsumerAct)
  | setGetBuffer (h : Int)
  | setGetOffset (v : Int)
  | setToken (t : Int)
  | setParseError (code : Int)
  | setContextLostReason (r : Int)
  | registerTransferBuffer (b : Buffer) (req : Option Int)
  | destroyTransferBuffer (h : Int)
  | setSharedStateBuffer (h : Int)
  | updateState
  | getState
deriving DecidableEq, Repr

/-- Modelled from the spec (secs. 6 and 7): the state reached by one
operation; a rejected operation reports its local error to the caller and
leaves the prior state bit-for-bit unchanged. -/
def applyOp (op : Op) (s : ServiceState) : ServiceState :=
  match op with
  | .flush p =>
      match Flush p s with
      | .ok r => r.1
      | .error _ => s
  | .flushSync p g0 sched =>
      match FlushSync p g0 sched s with
      | .ok r => r.1
      | .error _ => s
  | .setGetBuffer h =>
      match SetGetBuffer h s with
      | .ok r => r.1
      | .error _ => s
  | .setGetOffset v =>
      match SetGetOffset v s with
      | .ok s' => s'
      | .error _ => s
  | .setToken t => SetToken t s
  | .setParseError code => (SetParseError code s).1
  | .setContextLostReason r => SetContextLostReason r s
  | .registerTransferBuffer b req =>
      match RegisterTransferBuffer b req s with
      | .ok r => r.2
      | .error _ => s
  | .destroyTransferBuffer h =>
      match DestroyTransferBuffer h s with
      | .ok s' => s'
      | .error _ => s
  | .setSharedStateBuffer h =>
      match SetSharedStateBuffer h s with
      | .ok s' => s'
      | .error _ => s
  | .updateState => UpdateState s
  | .getState => s

/-- Modelled from the spec (sec. 6): the state reached by a sequence of
operations applied left to right. -/
def applyOps (ops : List Op) (s : ServiceState) : ServiceState :=
  ops.foldl (fun t op => applyOp op t) s

/-- Concrete state of the sec. 8 scenario after registering buffer id 5 of
640 bytes into the fresh service. -/
def regS : ServiceState :=
  { initialState with registry := [(5, ⟨0, 640⟩)], bytesRegistered := 640 }

/-- Concrete state of the sec. 8 scenario after additionally binding handle 5
as the ring: 640 / 64 = 10 entries, offsets reset. -/
def boundS : ServiceState :=
  { regS with ringBufferId := some 5, numEntries := 10 }

/-- Concrete state reached from `boundS` by `FlushSync 5 0` once the consumer
has acknowledged get offset 5. -/
def boundF : ServiceState :=
  { boundS with putOffset := 5, getOffset := 5 }

/-- Concrete state with a shared-state snapshot target bound to handle 5. -/
def sharedS : ServiceState :=
  { boundS with sharedStateBufferId := some 5 }

/-- Concrete state reached from `boundS` by destroying handle 5, which is
simultaneously the active ring binding. -/
def destS : ServiceState :=
  { boundS with registry := [], bytesRegistered := 0, ringBufferId := none
                numEntries := 0 }

theorem lookup_filter_ne (h : Int) (l : List (Int × Buffer)) :
    (l.filter (fun p => p.1 != h)).lookup h = none := by
  induction l with
  | nil => rfl
  | cons p t ih =>
      by_cases hp : p.1 = h
      · simp [List.filter, hp, ih]
      · simp only [List.filter]
        have hb : (p.1 != h) = true := by simpa using hp
        rw [hb]
        simp only [List.lookup]
        have hk : (h == p.1) = false := by
          simpa using fun e => hp e.symm
        rw [hk]
        exact ih

theorem applyConsumer_error (a : ConsumerAct) (s : ServiceState)
    (h : s.error ≠ 0) : (applyConsumer a s).error = s.error := by
  cases a with
  | ackGet v =>
      simp only [applyConsumer, SetGetOffset]
      by_cases hc : offsetAccepted s v
      · simp [hc]
      · simp [hc]
  | latchParseError code =>
      simp only [applyConsumer, SetParseError]
      rw [if_neg (by simp [h])]
  | latchContextLost r =>
      simp only [applyConsumer, SetContextLostReason]
      split <;> rfl

theorem flushSyncWait_error (g0 : Int) (acts : List ConsumerAct) :
    ∀ s : ServiceState, s.error ≠ 0 →
      (flushSyncWait g0 acts s).1.error = s.error := by
  induction acts with
  | nil => intro s _; rfl
  | cons a rest ih =>
      intro s h
      simp only [flushSyncWait]
      by_cases hsd : syncDone g0 s = true
      · simp [hsd]
      · simp only [hsd, if_false, Bool.false_eq_true]
        rw [ih (applyConsumer a s) (by rw [applyConsumer_error a s h]; exact h)]
        exact applyConsumer_error a s h

theorem applyOp_error (op : Op) (s : ServiceState) (h : s.error ≠ 0) :
    (applyOp op s).error = s.error := by
  cases op with
  | flush p =>
      simp only [applyOp, Flush]
      by_cases hc : offsetAccepted s p
      · simp [hc]
      · simp [hc]
  | flushSync p g0 sched =>
      simp only [applyOp, FlushSync]
      by_cases hc : offsetAccepted s p
      · simp only [hc, if_true, if_pos]
        exact flushSyncWait_error g0 sched _ h
      · simp [hc]
  | setGetBuffer hh =>
      simp only [applyOp, SetGetBuffer]
      cases hl : List.lookup hh s.registry <;> simp [hl]
  | setGetOffset v =>
      simp only [applyOp, SetGetOffset]
      by_cases hc : offsetAccepted s v
      · simp [hc]
      · simp [hc]
  | setToken t => rfl
  | setParseError code =>
      simp only [applyOp, SetParseError]
      rw [if_neg (by simp [h])]
  | setContextLostReason r =>
      simp only [applyOp, SetContextLostReason]
      split <;> rfl
  | registerTransferBuffer b req =>
      simp only [applyOp, RegisterTransferBuffer]
      cases req with
      | some r =>
          by_cases h1 : r < 0
          · simp [h1]
          · by_cases h2 : (List.lookup r s.registry).isSome
            · simp [h1, h2]
            · simp [h1, h2]
      | none => rfl
  | destroyTransferBuffer hh =>
      simp only [applyOp, DestroyTransferBuffer]
      cases hl : List.lookup hh s.registry with
      | some b =>
          by_cases hr : s.ringBufferId = some hh
          · simp [hl, hr]
          · simp [hl, hr]
      | none => simp [hl]
  | setSharedStateBuffer hh =>
      simp only [applyOp, SetSharedStateBuffer]
      by_cases h2 : (List.lookup hh s.registry).isSome
      · simp [h2]
      · simp [h2]
  | updateState =>
      simp only [applyOp, UpdateState]
      cases hl : s.sharedStateBufferId <;> simp [hl]
  | getState => rfl

theorem applyOps_error (ops : List Op) :
    ∀ s : ServiceState, s.error ≠ 0 → (applyOps ops s).error = s.error := by
  induction ops with
  | nil => intro s _; rfl
  | cons op rest ih =>
      intro s h
      show (applyOps rest (applyOp op s)).error = s.error
      rw [ih (applyOp op s) (by rw [applyOp_error op s h]; exact h)]
      exact applyOp_error op s h

theorem flushSyncWait_done (g0 : Int) (acts : List ConsumerAct) :
    ∀ s : ServiceState, (flushSyncWait g0 acts s).2 = true →
      syncDone g0 (flushSyncWait g0 acts s).1 = true := by
  induction acts with
  | nil => intro s h; exact h
  | cons a rest ih =>
      intro s h
      simp only [flushSyncWait] at h ⊢
      by_cases hsd : syncDone g0 s = true
      · simp [hsd]
      · simp only [hsd, if_false, Bool.false_eq_true] at h ⊢
        exact ih (applyConsumer a s) h

theorem not_accepted (s : ServiceState) (v : Int)
    (hout : v < 0 ∨ (s.numEntries : Int) ≤ v)
    (hc : ¬(v = 0 ∧ s.numEntries = 0)) : ¬ offsetAccepted s v := by
  rintro (⟨h0, hlt⟩ | h0)
  · rcases hout with hm | hm <;> omega
  · subst h0
    rcases hout with hm | hm
    · omega
    · exact hc ⟨rfl, by omega⟩

/-- Claim C1: when `FlushSync(p, g0)` completes and returns a state snapshot,
the state it returns satisfies at least one of: the get offset has advanced
past `g0`, the ring is drained (`get = put`), or the error/context-lost latch
is non-trivial; and the value returned is the observable snapshot
(`GetState`) of that latest state.  The wait is quantified over every finite
schedule of consumer actions; `some st` in the result means the blocking call
completed. -/
theorem c1_flushSync (s : ServiceState) (p g0 : Int)
    (sched : List ConsumerAct) (s2 : ServiceState) (st : CBState)
    (h : FlushSync p g0 sched s = .ok (s2, some st)) :
    (g0 < s2.getOffset ∨ s2.getOffset = s2.putOffset ∨
       s2.error ≠ 0 ∨ s2.contextLost.isSome = true) ∧
      st = GetState s2 := by
  unfold FlushSync at h
  by_cases hc : offsetAccepted s p
  · rw [if_pos hc] at h
    simp only [Except.ok.injEq, Prod.mk.injEq] at h
    obtain ⟨h1, h2⟩ := h
    by_cases hd : (flushSyncWait g0 sched { s with putOffset := p }).2 = true
    · rw [if_pos hd] at h2
      have hsd := flushSyncWait_done g0 sched { s with putOffset := p } hd
      rw [h1] at hsd
      simp only [syncDone, Bool.or_eq_true, decide_eq_true_eq] at hsd
      refine ⟨by tauto, ?_⟩
      rw [← h1]
      exact (Option.some.injEq _ _ ▸ h2).symm
    · rw [if_neg hd] at h2
      exact absurd h2 (by simp)
  · rw [if_neg hc] at h
    exact absurd h (by simp)

/-- Witness for C1: from `boundS`, `FlushSync 5 0` completes once the
consumer acknowledges get offset 5, and the released state satisfies the
postcondition. -/
theorem c1_flushSync_witness :
    (0 < boundF.getOffset ∨ boundF.getOffset = boundF.putOffset ∨
       boundF.error ≠ 0 ∨ boundF.contextLost.isSome = true) ∧
      GetState boundF = GetState boundF :=
  c1_flushSync boundS 5 0 [ConsumerAct.ackGet 5] boundF (GetState boundF) rfl

/-- Claim C2: `SetGetBuffer(handle)` on a handle registered with byte size S
binds the ring, sets `entry_count = S / entryStride` and resets both put and
get to 0; on an unknown handle it reports `InvalidHandle` and leaves the
whole state (binding, entry count, put, get) unchanged, with no partial
mutation observable. -/
theorem c2_setGetBuffer (s : ServiceState) (h : Int) :
    (∀ b : Buffer, s.registry.lookup h = some b →
      SetGetBuffer h s = .ok ({ s with ringBufferId := some h
                                       numEntries := b.size / entryStride
                                       putOffset := 0
                                       getOffset := 0 },
                              [Event.getBufferChanged])) ∧
    (s.registry.lookup h = none →
      SetGetBuffer h s = .error LocalErr.invalidHandle ∧
        applyOp (Op.setGetBuffer h) s = s) := by
  constructor
  · intro b hb
    unfold SetGetBuffer
    rw [hb]
  · intro hn
    have he : SetGetBuffer h s = .error LocalErr.invalidHandle := by
      unfold SetGetBuffer
      rw [hn]
    refine ⟨he, ?_⟩
    simp only [applyOp]
    rw [he]

/-- Witness for C2: binding registered handle 5 of size 640 succeeds with 10
entries and zero offsets, and binding unknown handle 7 on the fresh service
fails as `InvalidHandle` with the state unchanged. -/
theorem c2_setGetBuffer_witness :
    SetGetBuffer 5 regS = .ok (boundS, [Event.getBufferChanged]) ∧
      SetGetBuffer 7 initialState = .error LocalErr.invalidHandle ∧
      applyOp (Op.setGetBuffer 7) initialState = initialState :=
  ⟨(c2_setGetBuffer regS 5).1 ⟨0, 640⟩ rfl,
   ((c2_setGetBuffer initialState 7).2 rfl).1,
   ((c2_setGetBuffer initialState 7).2 rfl).2⟩

/-- Claim C3: in a bound state with entry count N, every offset outside
`[0, N)` — where the spec's own edge-case policy keeps offset 0 legal against
an `N = 0` ring, so the zero-offset, zero-count corner is carved out exactly
as the claim's parenthetical does — is rejected as `OutOfBounds` by both
`Flush` and `SetGetOffset`, leaving the whole prior state unchanged. -/
theorem c3_reject (s : ServiceState) (v : Int)
    (_hb : s.ringBufferId.isSome = true)
    (hout : v < 0 ∨ (s.numEntries : Int) ≤ v)
    (hc : ¬(v = 0 ∧ s.numEntries = 0)) :
    Flush v s = .error LocalErr.outOfBounds ∧
      SetGetOffset v s = .error LocalErr.outOfBounds ∧
      applyOp (Op.flush v) s = s ∧
      applyOp (Op.setGetOffset v) s = s := by
  have hna := not_accepted s v hout hc
  have hf : Flush v s = .error LocalErr.outOfBounds := by
    unfold Flush
    rw [if_neg hna]
  have hg : SetGetOffset v s = .error LocalErr.outOfBounds := by
    unfold SetGetOffset
    rw [if_neg hna]
  refine ⟨hf, hg, ?_, ?_⟩
  · simp only [applyOp]
    rw [hf]
  · simp only [applyOp]
    rw [hg]

/-- Witness for C3: against the 10-entry bound state, offset 10 is rejected
by both mutators and the state is unchanged. -/
theorem c3_reject_witness :
    Flush 10 boundS = .error LocalErr.outOfBounds ∧
      SetGetOffset 10 boundS = .error LocalErr.outOfBounds ∧
      applyOp (Op.flush 10) boundS = boundS ∧
      applyOp (Op.setGetOffset 10) boundS = boundS :=
  c3_reject boundS 10 rfl (Or.inr (by decide)) (by decide)

/-- Claim C4: in a bound state, `Flush(p)` with `p` in `[0, entry_count)`
stores `p` as the put offset and invokes the put-offset-changed notification
exactly once, synchronously before returning: the result is exactly the
updated state paired with the one-element notification list. -/
theorem c4_flush (s : ServiceState) (p : Int)
    (_hb : s.ringBufferId.isSome = true)
    (h0 : 0 ≤ p) (hN : p < (s.numEntries : Int)) :
    Flush p s = .ok ({ s with putOffset := p }, [Event.putOffsetChanged]) := by
  unfold Flush
  rw [if_pos (show offsetAccepted s p from Or.inl ⟨h0, hN⟩)]

/-- Witness for C4: flushing put offset 9 into the 10-entry bound state. -/
theorem c4_flush_witness :
    Flush 9 boundS = .ok ({ boundS with putOffset := 9 },
                          [Event.putOffsetChanged]) :=
  c4_flush boundS 9 rfl (by decide) (by decide)

/-- Claim C5: `SetParseError(code)` in a state with the trivial latch makes
every subsequent `GetState` report `error = code` across any sequence of
normal operations (flushes, offset updates, registry changes, further
latch attempts, state publications), and no operation clears the latch. -/
theorem c5_sticky (s : ServiceState) (code : Int) (ops : List Op)
    (h0 : s.error = 0) (hc : code ≠ 0) :
    (GetState (applyOps ops (SetParseError code s).1)).error = code ∧
      (applyOps ops (SetParseError code s).1).error = code := by
  have h1 : (SetParseError code s).1 = { s with error := code } := by
    simp [SetParseError, h0, hc]
  rw [h1]
  have h2 : (applyOps ops { s with error := code }).error = code :=
    applyOps_error ops { s with error := code } hc
  exact ⟨h2, h2⟩

/-- Witness for C5: latching parse error 7 in the bound state survives a
successful flush, a second latch attempt and a state query. -/
theorem c5_sticky_witness :
    (GetState (applyOps [Op.flush 2, Op.setParseError 9, Op.getState]
        (SetParseError 7 boundS).1)).error = 7 ∧
      (applyOps [Op.flush 2, Op.setParseError 9, Op.getState]
        (SetParseError 7 boundS).1).error = 7 :=
  c5_sticky boundS 7 [Op.flush 2, Op.setParseError 9, Op.getState] rfl
    (by decide)

/-- Claim C6: the sec. 8 concrete scenario: registering buffer id 5 of 640
bytes (entry stride 64) succeeds; `SetGetBuffer(5)` succeeds and yields
`entry_count = 10`; `Flush(10)` is rejected as `OutOfBounds`; `Flush(9)`
succeeds and the observable state has `put = 9`. -/
theorem c6_scenario :
    RegisterTransferBuffer ⟨0, 640⟩ (some 5) initialState = .ok (5, regS) ∧
      SetGetBuffer 5 regS = .ok (boundS, [Event.getBufferChanged]) ∧
      boundS.numEntries = 10 ∧
      Flush 10 boundS = .error LocalErr.outOfBounds ∧
      Flush 9 boundS = .ok ({ boundS with putOffset := 9 },
                            [Event.putOffsetChanged]) ∧
      (GetState { boundS with putOffset := 9 }).put = 9 :=
  ⟨rfl, rfl, rfl, rfl, rfl, rfl⟩

/-- Claim C7: with a shared-state buffer bound, `SetToken(v)` stores `v`
unconditionally (last-write-wins, no ordering check), and a following
`UpdateState()` writes a snapshot whose token field equals `v` and whose
generation counter has advanced by exactly 1 from its previous value. -/
theorem c7_token (s : ServiceState) (v : Int)
    (hs : s.sharedStateBufferId.isSome = true) :
    (SetToken v s).token = v ∧
      (UpdateState (SetToken v s)).snapshot.fields.token = v ∧
      (UpdateState (SetToken v s)).snapshot.generation =
        s.snapshot.generation + 1 := by
  obtain ⟨id, hid⟩ := Option.isSome_iff_exists.mp hs
  refine ⟨rfl, ?_, ?_⟩ <;> simp [UpdateState, SetToken, hid]

/-- Witness for C7: the concrete `SetToken 42` then `UpdateState` scenario on
a state with the snapshot target bound. -/
theorem c7_token_witness :
    (SetToken 42 sharedS).token = 42 ∧
      (UpdateState (SetToken 42 sharedS)).snapshot.fields.token = 42 ∧
      (UpdateState (SetToken 42 sharedS)).snapshot.generation =
        sharedS.snapshot.generation + 1 :=
  c7_token sharedS 42 rfl

/-- Claim C8: every registration that succeeds, whether the handle was
requested explicitly or auto-assigned, is immediately observable: looking the
returned handle up yields exactly the registered region and byte size. -/
theorem c8_register_lookup (b : Buffer) (req : Option Int) (s : ServiceState)
    (h : Int) (s' : ServiceState)
    (hr : RegisterTransferBuffer b req s = .ok (h, s')) :
    GetTransferBuffer h s' = some b := by
  unfold RegisterTransferBuffer at hr
  match req with
  | some r =>
      simp only at hr
      split at hr
      · exact absurd hr (by simp)
      · split at hr
        · exact absurd hr (by simp)
        · simp only [Except.ok.injEq, Prod.mk.injEq] at hr
          obtain ⟨h1, h2⟩ := hr
          subst h1 h2
          simp [GetTransferBuffer, List.lookup]
  | none =>
      simp only [Except.ok.injEq, Prod.mk.injEq] at hr
      obtain ⟨h1, h2⟩ := hr
      subst h1 h2
      simp [GetTransferBuffer, List.lookup]

/-- Witness for C8: registering buffer ⟨0, 640⟩ under requested handle 5 into
the fresh service, then looking handle 5 up. -/
theorem c8_register_lookup_witness :
    GetTransferBuffer 5 regS = some ⟨0, 640⟩ :=
  c8_register_lookup ⟨0, 640⟩ (some 5) initialState 5 regS rfl

/-- Claim C9: destroying a live handle makes a following lookup yield
NotFound (`none`), and when the destroyed handle is simultaneously the
active ring binding the destroy detaches the binding first, returning the
ring to `Unbound` instead of leaving a dangling binding. -/
theorem c9_destroy_lookup (h : Int) (s s' : ServiceState)
    (hd : DestroyTransferBuffer h s = .ok s') :
    GetTransferBuffer h s' = none ∧
      (s.ringBufferId = some h → s'.ringBufferId = none) := by
  unfold DestroyTransferBuffer at hd
  match hl : s.registry.lookup h with
  | some b =>
      rw [hl] at hd
      simp only [Except.ok.injEq] at hd
      subst hd
      constructor
      · by_cases hr : s.ringBufferId = some h
        · simp [GetTransferBuffer, hr, lookup_filter_ne]
        · simp [GetTransferBuffer, hr, lookup_filter_ne]
      · intro hr
        simp [hr]
  | none =>
      rw [hl] at hd
      exact absurd hd (by simp)

/-- Witness for C9: destroying handle 5 while it is the active ring binding
of `boundS`: the lookup afterwards fails and the ring is unbound. -/
theorem c9_destroy_lookup_witness :
    GetTransferBuffer 5 destS = none ∧
      (boundS.ringBufferId = some 5 → destS.ringBufferId = none) :=
  c9_destroy_lookup 5 boundS destS rfl

end Gpu
